import Mathlib

set_option maxHeartbeats 2000000

/-!
Verification of the mode-switch core of the supergfxctl daemon.

The definitions below are shallow embeddings of the Rust source:
`actions.rs` (switch planner, logout wait loop), `pci_device.rs`
(device registry, unbind/remove primitives, power-state parsing),
`config.rs` (Vulkan ICD toggle, config document) and `zbus_iface.rs`
(the D-Bus `set_config` method).  Filesystem and udev observations are
made explicit as environment parameters; machine behaviour (which file
is written, in which order, which variant is returned) is preserved.
-/

deriving instance DecidableEq for Except

namespace Supergfx

/-- All the available graphics modes (`GfxMode` in `pci_device.rs`). -/
inductive GfxMode where
  | Hybrid
  | Integrated
  | NvidiaNoModeset
  | Vfio
  | AsusEgpu
  | AsusMuxDgpu
  | None
  deriving DecidableEq, Repr

/-- GPU vendors (`GfxVendor` in `pci_device.rs`). -/
inductive GfxVendor where
  | Nvidia
  | Amd
  | Intel
  | Unknown
  | AsusDgpuDisabled
  deriving DecidableEq, Repr

/-- Power states of the dGPU (`GfxPower` in `pci_device.rs`). -/
inductive GfxPower where
  | Active
  | Suspended
  | Off
  | AsusDisabled
  | AsusMuxDiscreet
  | Unknown
  deriving DecidableEq, Repr

/-- Hotplug policy (`HotplugType` in `pci_device.rs`). -/
inductive HotplugType where
  | Std
  | Asus
  | None
  deriving DecidableEq, Repr

/-- The user action reported after a switch request (`UserActionRequired` in `actions.rs`). -/
inductive UserActionRequired where
  | Logout
  | Reboot
  | SwitchToIntegrated
  | AsusEgpuDisable
  | Nothing
  deriving DecidableEq, Repr

/-- All the possible staged actions (`StagedAction` in `actions.rs`). -/
inductive StagedAction where
  | WaitLogout
  | StopDisplayManager
  | StartDisplayManager
  | NoLogind
  | SendDetachEvent
  | LoadGpuDrivers
  | UnloadGpuDrivers
  | KillNvidia
  | KillAmd
  | EnableNvidiaPersistenced
  | DisableNvidiaPersistenced
  | EnableNvidiaPowerd
  | DisableNvidiaPowerd
  | LoadVfioDrivers
  | UnloadVfioDrivers
  | DevTreeManaged
  | RescanPci
  | UnbindRemoveGpu
  | UnbindGpu
  | HotplugUnplug
  | HotplugPlug
  | AsusDgpuDisable
  | AsusDgpuEnable
  | AsusEgpuDisable
  | AsusEgpuEnable
  | AsusMuxIgpu
  | AsusMuxDgpu
  | WriteModprobeConf
  | CheckVulkanIcd
  | NotNvidia
  | None
  deriving DecidableEq, Repr

/-- Errors surfaced by the engine (`GfxError` in `error.rs`); payloads are
reduced to the strings the source formats into them. -/
inductive GfxError where
  | DgpuNotFound
  | ParseMode
  | NotSupported (msg : String)
  | SystemdUnitWaitTimeout (detail : String)
  | Write (path : String)
  | Path (path : String)
  deriving DecidableEq, Repr

/-- Result of the planner (`Action` in `actions.rs`): either a user-action
verdict or an ordered list of staged actions. -/
inductive Action where
  | UserAction (action : UserActionRequired)
  | StagedActions (steps : List StagedAction)
  deriving DecidableEq, Repr

/-- The persisted configuration (`GfxConfig` in `config.rs`); the serde-skipped
transient fields and the path are irrelevant to the claims and omitted. -/
structure GfxConfig where
  mode : GfxMode
  vfio_enable : Bool
  vfio_save : Bool
  always_reboot : Bool
  no_logind : Bool
  logout_timeout_s : Nat
  hotplug_type : HotplugType
  deriving DecidableEq, Repr

/-- The config view passed over D-Bus (`GfxConfigDbus` in `config.rs`). -/
structure GfxConfigDbus where
  mode : GfxMode
  vfio_enable : Bool
  vfio_save : Bool
  always_reboot : Bool
  no_logind : Bool
  logout_timeout_s : Nat
  hotplug_type : HotplugType
  deriving DecidableEq, Repr

/-- The switch planner (`StagedAction::action_list_for_switch`, `actions.rs`
lines 300-564).  Resolves the logind-, vendor- and hotplug-conditional steps
up front exactly as the source does, then dispatches on `(from, to)`. -/
def StagedAction.action_list_for_switch (config : GfxConfig) (vendor : GfxVendor)
    (fromMode toMode : GfxMode) : Action :=
  let logind_ok := !config.no_logind && !config.always_reboot
  let wait_logout := if logind_ok then StagedAction.WaitLogout else StagedAction.NoLogind
  let stop_display := if logind_ok then StagedAction.StopDisplayManager else StagedAction.NoLogind
  let start_display := if logind_ok then StagedAction.StartDisplayManager else StagedAction.NoLogind
  let kill_gpu_use :=
    if vendor = GfxVendor.Nvidia then StagedAction.KillNvidia
    else if vendor = GfxVendor.Amd then StagedAction.KillAmd
    else StagedAction.NotNvidia
  let disable_nvidia_persistenced := StagedAction.DisableNvidiaPersistenced
  let enable_nvidia_persistenced := StagedAction.EnableNvidiaPersistenced
  let disable_nvidia_powerd := StagedAction.DisableNvidiaPowerd
  let enable_nvidia_powerd := StagedAction.EnableNvidiaPowerd
  let hotplug_rm_type := match config.hotplug_type with
    | HotplugType.Std => StagedAction.HotplugUnplug
    | HotplugType.Asus => StagedAction.AsusDgpuDisable
    | HotplugType.None => StagedAction.DevTreeManaged
  let hotplug_add_type := match config.hotplug_type with
    | HotplugType.Std => StagedAction.HotplugPlug
    | HotplugType.Asus => StagedAction.AsusDgpuEnable
    | HotplugType.None => StagedAction.DevTreeManaged
  match fromMode with
  | GfxMode.Hybrid =>
    match toMode with
    | GfxMode.Integrated => Action.StagedActions [wait_logout, stop_display,
        disable_nvidia_persistenced, disable_nvidia_powerd, kill_gpu_use,
        StagedAction.UnloadGpuDrivers, StagedAction.UnbindRemoveGpu,
        StagedAction.WriteModprobeConf, StagedAction.CheckVulkanIcd,
        hotplug_rm_type, start_display]
    | GfxMode.Vfio => Action.UserAction UserActionRequired.SwitchToIntegrated
    | GfxMode.AsusEgpu => Action.StagedActions [wait_logout, stop_display,
        disable_nvidia_persistenced, disable_nvidia_powerd, kill_gpu_use,
        StagedAction.UnloadGpuDrivers, StagedAction.UnbindRemoveGpu,
        StagedAction.WriteModprobeConf, StagedAction.CheckVulkanIcd,
        StagedAction.AsusEgpuEnable, StagedAction.RescanPci,
        StagedAction.LoadGpuDrivers, enable_nvidia_persistenced,
        enable_nvidia_powerd, start_display]
    | GfxMode.AsusMuxDgpu => Action.StagedActions [StagedAction.CheckVulkanIcd,
        enable_nvidia_persistenced, enable_nvidia_powerd, StagedAction.AsusMuxDgpu]
    | GfxMode.Hybrid => Action.UserAction UserActionRequired.Nothing
    | GfxMode.NvidiaNoModeset => Action.UserAction UserActionRequired.Nothing
    | GfxMode.None => Action.UserAction UserActionRequired.Nothing
  | GfxMode.Integrated =>
    match toMode with
    | GfxMode.Hybrid => Action.StagedActions [wait_logout, stop_display,
        StagedAction.WriteModprobeConf, StagedAction.CheckVulkanIcd,
        hotplug_add_type, StagedAction.RescanPci, StagedAction.LoadGpuDrivers,
        enable_nvidia_persistenced, enable_nvidia_powerd, start_display]
    | GfxMode.NvidiaNoModeset => Action.StagedActions [StagedAction.WriteModprobeConf,
        StagedAction.CheckVulkanIcd, StagedAction.RescanPci,
        StagedAction.LoadGpuDrivers, enable_nvidia_persistenced, enable_nvidia_powerd]
    | GfxMode.Vfio => Action.StagedActions [StagedAction.WriteModprobeConf,
        StagedAction.CheckVulkanIcd, hotplug_add_type, StagedAction.RescanPci,
        disable_nvidia_persistenced, disable_nvidia_powerd, kill_gpu_use,
        StagedAction.UnloadGpuDrivers, StagedAction.UnbindGpu,
        StagedAction.LoadVfioDrivers]
    | GfxMode.AsusEgpu => Action.StagedActions [wait_logout, stop_display,
        StagedAction.WriteModprobeConf, StagedAction.CheckVulkanIcd,
        StagedAction.AsusEgpuEnable, StagedAction.RescanPci,
        StagedAction.LoadGpuDrivers, enable_nvidia_persistenced,
        enable_nvidia_powerd, start_display]
    | GfxMode.AsusMuxDgpu => Action.StagedActions [StagedAction.WriteModprobeConf,
        StagedAction.CheckVulkanIcd, hotplug_add_type, enable_nvidia_persistenced,
        enable_nvidia_powerd, StagedAction.AsusMuxDgpu]
    | GfxMode.Integrated => Action.UserAction UserActionRequired.Nothing
    | GfxMode.None => Action.UserAction UserActionRequired.Nothing
  | GfxMode.NvidiaNoModeset =>
    match toMode with
    | GfxMode.Hybrid => Action.UserAction UserActionRequired.Nothing
    | GfxMode.Integrated => Action.StagedActions [StagedAction.SendDetachEvent,
        disable_nvidia_persistenced, disable_nvidia_powerd, kill_gpu_use,
        StagedAction.UnloadGpuDrivers, StagedAction.UnbindRemoveGpu,
        StagedAction.WriteModprobeConf, StagedAction.CheckVulkanIcd]
    | GfxMode.Vfio => Action.StagedActions [StagedAction.SendDetachEvent,
        disable_nvidia_persistenced, disable_nvidia_powerd, kill_gpu_use,
        StagedAction.UnloadGpuDrivers, StagedAction.WriteModprobeConf,
        StagedAction.CheckVulkanIcd, StagedAction.LoadVfioDrivers]
    | GfxMode.AsusEgpu => Action.UserAction UserActionRequired.Nothing
    | GfxMode.AsusMuxDgpu => Action.StagedActions [enable_nvidia_persistenced,
        enable_nvidia_powerd, StagedAction.AsusMuxDgpu]
    | GfxMode.NvidiaNoModeset => Action.UserAction UserActionRequired.Nothing
    | GfxMode.None => Action.UserAction UserActionRequired.Nothing
  | GfxMode.Vfio =>
    match toMode with
    | GfxMode.Hybrid => Action.StagedActions [kill_gpu_use,
        StagedAction.UnloadVfioDrivers, StagedAction.WriteModprobeConf,
        StagedAction.CheckVulkanIcd, StagedAction.RescanPci,
        StagedAction.LoadGpuDrivers]
    | GfxMode.NvidiaNoModeset => Action.StagedActions [kill_gpu_use,
        StagedAction.UnloadVfioDrivers, StagedAction.WriteModprobeConf,
        StagedAction.CheckVulkanIcd, StagedAction.RescanPci,
        StagedAction.LoadGpuDrivers]
    | GfxMode.Integrated => Action.StagedActions [kill_gpu_use,
        StagedAction.UnloadVfioDrivers, StagedAction.UnbindRemoveGpu]
    | GfxMode.AsusEgpu => Action.StagedActions [wait_logout, stop_display,
        StagedAction.UnloadVfioDrivers, StagedAction.UnbindRemoveGpu,
        StagedAction.WriteModprobeConf, StagedAction.CheckVulkanIcd,
        StagedAction.AsusEgpuEnable, StagedAction.RescanPci,
        StagedAction.LoadGpuDrivers, enable_nvidia_persistenced,
        enable_nvidia_powerd, start_display]
    | GfxMode.AsusMuxDgpu => Action.StagedActions [enable_nvidia_persistenced,
        enable_nvidia_powerd, StagedAction.AsusMuxDgpu]
    | GfxMode.Vfio => Action.UserAction UserActionRequired.Nothing
    | GfxMode.None => Action.UserAction UserActionRequired.Nothing
  | GfxMode.AsusEgpu =>
    match toMode with
    | GfxMode.Hybrid => Action.StagedActions [wait_logout, stop_display,
        disable_nvidia_persistenced, disable_nvidia_powerd, kill_gpu_use,
        StagedAction.UnloadGpuDrivers, StagedAction.UnbindRemoveGpu,
        StagedAction.WriteModprobeConf, StagedAction.CheckVulkanIcd,
        StagedAction.AsusEgpuDisable, StagedAction.AsusDgpuEnable,
        StagedAction.RescanPci, StagedAction.LoadGpuDrivers,
        enable_nvidia_persistenced, enable_nvidia_powerd, start_display]
    | GfxMode.Integrated => Action.StagedActions [wait_logout, stop_display,
        disable_nvidia_persistenced, disable_nvidia_powerd, kill_gpu_use,
        StagedAction.UnloadGpuDrivers, StagedAction.UnbindRemoveGpu,
        StagedAction.WriteModprobeConf, StagedAction.AsusEgpuDisable,
        StagedAction.UnloadGpuDrivers, StagedAction.UnbindRemoveGpu,
        StagedAction.WriteModprobeConf, StagedAction.CheckVulkanIcd,
        hotplug_rm_type, start_display]
    | GfxMode.Vfio => Action.UserAction UserActionRequired.SwitchToIntegrated
    | GfxMode.AsusMuxDgpu => Action.UserAction UserActionRequired.AsusEgpuDisable
    | GfxMode.AsusEgpu => Action.UserAction UserActionRequired.Nothing
    | GfxMode.NvidiaNoModeset => Action.UserAction UserActionRequired.Nothing
    | GfxMode.None => Action.UserAction UserActionRequired.Nothing
  | GfxMode.AsusMuxDgpu =>
    match toMode with
    | GfxMode.AsusMuxDgpu => Action.UserAction UserActionRequired.Nothing
    | _ => Action.StagedActions [StagedAction.AsusMuxIgpu]
  | GfxMode.None => Action.UserAction UserActionRequired.Nothing

/-- The staged-action list carried by a planner result; a user-action verdict
carries no steps. -/
def Action.staged_steps : Action → List StagedAction
  | Action.UserAction _ => []
  | Action.StagedActions steps => steps

/-- ASCII case folding of one character, modelling Rust's `to_lowercase` on
the ASCII alphabet (all strings the parser recognises are ASCII). -/
def char_to_lower (c : Char) : Char :=
  if 'A' ≤ c ∧ c ≤ 'Z' then Char.ofNat (c.toNat + 32) else c

/-- Rust `str::to_lowercase`, modelled character-wise. -/
def str_to_lowercase (s : String) : String := ⟨s.data.map char_to_lower⟩

/-- Rust `str::trim`: strip leading and trailing whitespace. -/
def str_trim (s : String) : String :=
  ⟨((s.data.dropWhile Char.isWhitespace).reverse.dropWhile Char.isWhitespace).reverse⟩

/-- Power-state parsing (`impl FromStr for GfxPower`, `pci_device.rs` lines
72-85): lowercase and trim the input, match the five recognised strings,
anything else is `Unknown`; the function is infallible (always `Ok`). -/
def GfxPower.from_str (s : String) : Except GfxError GfxPower :=
  let t := str_trim (str_to_lowercase s)
  Except.ok <|
    if t = "active" then GfxPower.Active
    else if t = "suspended" then GfxPower.Suspended
    else if t = "off" then GfxPower.Off
    else if t = "dgpu_disabled" then GfxPower.AsusDisabled
    else if t = "asus_mux_discreet" then GfxPower.AsusMuxDiscreet
    else GfxPower.Unknown

/-- String form of a power state (`impl From<&GfxPower> for &str`,
`pci_device.rs` lines 87-98). -/
def GfxPower.as_str : GfxPower → String
  | GfxPower.Active => "active"
  | GfxPower.Suspended => "suspended"
  | GfxPower.Off => "off"
  | GfxPower.AsusDisabled => "dgpu_disabled"
  | GfxPower.AsusMuxDiscreet => "asus_mux_discreet"
  | GfxPower.Unknown => "unknown"

/-- The state of the two Vulkan ICD paths: whether the Nvidia ICD
registration file exists and whether its `_inactive` sibling exists. -/
structure VulkanIcdFs where
  icd_present : Bool
  inactive_present : Bool
  deriving DecidableEq, Repr

/-- The Vulkan ICD toggle (`check_vulkan_icd`, `config.rs` lines 172-196):
for `Vfio`/`Integrated`, rename the ICD file to the `_inactive` sibling if it
exists; for any other mode, rename the sibling back if it exists.  Each
rename is guarded by an existence check on its source path. -/
def check_vulkan_icd (mode : GfxMode) (fs : VulkanIcdFs) : VulkanIcdFs :=
  if mode = GfxMode.Vfio ∨ mode = GfxMode.Integrated then
    if fs.icd_present then { icd_present := false, inactive_present := true }
    else fs
  else
    if fs.inactive_present then { icd_present := true, inactive_present := false }
    else fs

/-- One iteration's observations of the `wait_logout` polling loop: the
cancellation flag, whether a graphical user session is still active or
online, and the whole seconds elapsed since the loop started. -/
structure LogoutPoll where
  loop_exit : Bool
  sessions_exist : Bool
  elapsed_s : Nat
  deriving DecidableEq, Repr

/-- The timeout detail string formatted by `wait_logout` (`actions.rs` line 697). -/
def logout_timeout_detail (t : Nat) : String :=
  "Time (" ++ toString t ++ " seconds) for logout exceeded"

/-- The `wait_logout` polling loop (`actions.rs` lines 686-704) over a finite
sequence of per-iteration observations.  Exhausting the observations models
the cancellation flag staying set (the `while` guard failing), which exits
the loop successfully. -/
def wait_logout_loop (logout_timeout_s : Nat) : List LogoutPoll → Except GfxError Unit
  | [] => Except.ok ()
  | p :: rest =>
    if p.loop_exit then Except.ok ()
    else if !p.sessions_exist then Except.ok ()
    else if logout_timeout_s ≠ 0 ∧ p.elapsed_s > logout_timeout_s then
      Except.error (GfxError.SystemdUnitWaitTimeout (logout_timeout_detail logout_timeout_s))
    else wait_logout_loop logout_timeout_s rest

/-- The session gate as implemented (`wait_logout`, `actions.rs` lines
676-709): the timeout is the local constant `let logout_timeout_s = 30;`,
so the configuration is not consulted at all. -/
def wait_logout (polls : List LogoutPoll) : Except GfxError Unit :=
  wait_logout_loop 30 polls

/-- The session gate as the spec describes it: the loop runs with the
configured `logout_timeout_s`, whose documented meaning (`config.rs` line 65)
is a timeout in seconds with `0` = infinite. -/
def wait_logout_configured (config : GfxConfig) (polls : List LogoutPoll) :
    Except GfxError Unit :=
  wait_logout_loop config.logout_timeout_s polls

/-- The D-Bus `set_config` method (`zbus_iface.rs` lines 185-211), modelled as
a pure state transformer: it returns the updated stored config and, when a
mode re-apply is triggered, the mode passed to the inner `set_mode` call. -/
def set_config (cfg : GfxConfig) (config : GfxConfigDbus) :
    GfxConfig × Option GfxMode :=
  let do_mode_change := cfg.mode = config.mode
  let mode := cfg.mode
  let cfg2 := { cfg with
    vfio_enable := config.vfio_enable
    vfio_save := config.vfio_save
    always_reboot := config.always_reboot
    no_logind := config.no_logind
    logout_timeout_s := config.logout_timeout_s }
  (cfg2, if do_mode_change then some mode else none)

/-- A PCI device as tracked by the registry (`Device` in `pci_device.rs`). -/
structure Device where
  dev_path : String
  hotplug_path : Option String
  vendor : GfxVendor
  is_dgpu : Bool
  name : String
  pci_id : String
  deriving DecidableEq, Repr

/-- The filesystem observations the unbind/remove primitives depend on:
`driver_of p` is the canonicalized target of `p/driver` when that symlink
resolves (`Device::driver`), and `path_is_present` is `Path::exists`. -/
structure FsEnv where
  driver_of : String → Option String
  path_is_present : String → Bool

/-- A sysfs write performed by the unbind/remove primitives. -/
inductive PciWrite where
  | unbind (file : String) (device_name : String)
  | remove (file : String)
  deriving DecidableEq, Repr

/-- `Device::unbind` (`pci_device.rs` lines 479-491): write the device name
to `{driver}/unbind` when the driver symlink resolves and the driver path
exists; otherwise do nothing.  The result is the list of writes performed. -/
def Device.unbind (env : FsEnv) (d : Device) : List PciWrite :=
  match env.driver_of d.dev_path with
  | some drv =>
    if env.path_is_present drv then [PciWrite.unbind (drv ++ "/unbind") d.name]
    else []
  | none => []

/-- `Device::remove` (`pci_device.rs` lines 493-504): write `1` to
`{dev_path}/remove` when the device path exists; otherwise do nothing. -/
def Device.remove (env : FsEnv) (d : Device) : List PciWrite :=
  if env.path_is_present d.dev_path then [PciWrite.remove (d.dev_path ++ "/remove")]
  else []

/-- The device registry (`DiscreetGpu` in `pci_device.rs`). -/
structure DiscreetGpu where
  vendor : GfxVendor
  dgpu_index : Nat
  devices : List Device
  deriving DecidableEq, Repr

/-- `DiscreetGpu::unbind` (`pci_device.rs` lines 673-687): when the vendor is
known, unbind every device iterating the set in reverse; a registry with an
`Unknown` vendor reports `NotSupported`. -/
def DiscreetGpu.unbind (env : FsEnv) (g : DiscreetGpu) :
    Except GfxError (List PciWrite) :=
  if g.vendor ≠ GfxVendor.Unknown then
    Except.ok (g.devices.reverse.flatMap (Device.unbind env))
  else Except.error (GfxError.NotSupported "unbind: Could not find dGPU")

/-- `DiscreetGpu::remove` (`pci_device.rs` lines 689-700): when the vendor is
known, remove every device iterating the set in reverse. -/
def DiscreetGpu.remove (env : FsEnv) (g : DiscreetGpu) :
    Except GfxError (List PciWrite) :=
  if g.vendor ≠ GfxVendor.Unknown then
    Except.ok (g.devices.reverse.flatMap (Device.remove env))
  else Except.error (GfxError.NotSupported "remove: Could not find dGPU")

/-- `DiscreetGpu::unbind_remove` (`pci_device.rs` lines 702-705): run the
whole unbind pass, then the whole remove pass, concatenating the writes. -/
def DiscreetGpu.unbind_remove (env : FsEnv) (g : DiscreetGpu) :
    Except GfxError (List PciWrite) := do
  let t1 ← g.unbind env
  let t2 ← g.remove env
  pure (t1 ++ t2)

/-- The claim's reading of `unbind_remove`: iterate the set once in reverse
order, performing unbind then remove per device before moving to the next. -/
def unbind_remove_interleaved (env : FsEnv) (g : DiscreetGpu) :
    Except GfxError (List PciWrite) :=
  if g.vendor ≠ GfxVendor.Unknown then
    Except.ok (g.devices.reverse.flatMap (fun d => Device.unbind env d ++ Device.remove env d))
  else Except.error (GfxError.NotSupported "unbind: Could not find dGPU")

/-- The device names carried by the `/unbind` writes of a trace, in order. -/
def unbind_write_names (tr : List PciWrite) : List String :=
  tr.filterMap (fun w => match w with
    | PciWrite.unbind _ n => some n
    | PciWrite.remove _ => none)

/-- Whether a device currently has a bound driver visible in sysfs: the
`driver` symlink resolves and the resolved path exists. -/
def has_bound_driver (env : FsEnv) (d : Device) : Bool :=
  match env.driver_of d.dev_path with
  | some drv => env.path_is_present drv
  | none => false

/-- The ASUS GPU MUX state (`AsusGpuMuxMode` in `special_asus.rs`, a file of
this repository outside `src/`).  Modelled from the spec: `gpu_mux_mode`
reads `0` (discrete, MUX to dGPU) or `1` (integrated, MUX via iGPU). -/
inductive AsusGpuMuxMode where
  | Discreet
  | Optimus
  deriving DecidableEq, Repr

/-- The environment observed by `DiscreetGpu::new`: the devices the udev
enumeration captured, the ASUS ACPI probe results (`asus_dgpu_disable_exists`,
`asus_dgpu_disabled`, `asus_gpu_mux_exists`, `asus_gpu_mux_mode` from
`special_asus.rs`, modelled as plain observations), and whether the initial
PCI bus rescan write succeeded. -/
structure DgpuEnv where
  captured : List Device
  dgpu_disable_file_present : Bool
  dgpu_disabled_read : Option Bool
  gpu_mux_file_present : Bool
  gpu_mux_mode_read : Option AsusGpuMuxMode
  rescan_ok : Bool

/-- `Device::find` final classification (`pci_device.rs` lines 415-419): the
udev enumeration is abstracted into the captured device list; an empty
result is the error `DgpuNotFound`. -/
def Device.find (captured : List Device) : Except GfxError (List Device) :=
  if captured.isEmpty then Except.error GfxError.DgpuNotFound
  else Except.ok captured

/-- The vendor chosen by `DiscreetGpu::new` when `Device::find` fails
(`pci_device.rs` lines 564-579): `AsusDgpuDisabled` when the `dgpu_disable`
node exists and reads disabled, else `Nvidia` when the `gpu_mux_mode` node
exists and reads `Discreet`, else `Unknown`. -/
def dgpu_fallback_vendor (env : DgpuEnv) : GfxVendor :=
  if env.dgpu_disable_file_present ∧ env.dgpu_disabled_read.getD false then
    GfxVendor.AsusDgpuDisabled
  else if env.gpu_mux_file_present &&
      (match env.gpu_mux_mode_read with
       | some c => c == AsusGpuMuxMode.Discreet
       | none => false) then
    GfxVendor.Nvidia
  else GfxVendor.Unknown

/-- `DiscreetGpu::new` (`pci_device.rs` lines 546-586): rescan the PCI bus,
run `Device::find`; on success fold over the devices recording the last
dGPU's vendor and index; on any find failure return an *empty* registry whose
vendor is the ASUS fallback. -/
def DiscreetGpu.new (env : DgpuEnv) : Except GfxError DiscreetGpu :=
  if !env.rescan_ok then Except.error (GfxError.Write "/sys/bus/pci/rescan")
  else
    match Device.find env.captured with
    | Except.ok device =>
      let r := device.enum.foldl
        (fun acc p => if p.2.is_dgpu then (p.2.vendor, p.1) else acc)
        (GfxVendor.Unknown, 0)
      Except.ok { vendor := r.1, dgpu_index := r.2, devices := device }
    | Except.error _ =>
      Except.ok { vendor := dgpu_fallback_vendor env, dgpu_index := 0, devices := [] }

/-- A representative default configuration: Hybrid mode, logind in use,
standard hotplug, 180 s logout timeout. -/
def cfg_default : GfxConfig :=
  { mode := GfxMode.Hybrid, vfio_enable := false, vfio_save := false,
    always_reboot := false, no_logind := false, logout_timeout_s := 180,
    hotplug_type := HotplugType.Std }

/-- A concrete dGPU function: the graphics device itself. -/
def dev_a : Device :=
  { dev_path := "/sys/devices/pci0000:00/0000:01:00.0", hotplug_path := none,
    vendor := GfxVendor.Nvidia, is_dgpu := true, name := "0000:01:00.0",
    pci_id := "10DE:25A0" }

/-- A concrete sibling function of the dGPU (its audio function). -/
def dev_b : Device :=
  { dev_path := "/sys/devices/pci0000:00/0000:01:00.1", hotplug_path := none,
    vendor := GfxVendor.Nvidia, is_dgpu := false, name := "0000:01:00.1",
    pci_id := "10DE:2291" }

/-- A filesystem in which every device path exists and every device is bound
to the nvidia driver. -/
def fs_all : FsEnv :=
  { driver_of := fun _ => some "/sys/bus/pci/drivers/nvidia",
    path_is_present := fun _ => true }

/-- A two-function Nvidia device set in enumeration order. -/
def gpu_two : DiscreetGpu :=
  { vendor := GfxVendor.Nvidia, dgpu_index := 0, devices := [dev_a, dev_b] }

/-- An environment in which enumeration captured nothing and no ASUS ACPI
node exists. -/
def env_no_dgpu : DgpuEnv :=
  { captured := [], dgpu_disable_file_present := false,
    dgpu_disabled_read := none, gpu_mux_file_present := false,
    gpu_mux_mode_read := none, rescan_ok := true }

/-- An environment in which enumeration captured nothing and the ASUS
`dgpu_disable` node exists and reads disabled. -/
def env_asus_disabled : DgpuEnv :=
  { captured := [], dgpu_disable_file_present := true,
    dgpu_disabled_read := some true, gpu_mux_file_present := false,
    gpu_mux_mode_read := none, rescan_ok := true }

/-- Claim C5: for Hybrid → Integrated with an Nvidia dGPU, logind enabled
(`no_logind = false`, `always_reboot = false`) and `hotplug_type = Std`, the
planner returns exactly the eleven staged actions
WaitLogout, StopDisplayManager, DisableNvidiaPersistenced,
DisableNvidiaPowerd, KillNvidia, UnloadGpuDrivers, UnbindRemoveGpu,
WriteModprobeConf, CheckVulkanIcd, HotplugUnplug, StartDisplayManager. -/
theorem hybrid_to_integrated_nvidia_plan (cfg : GfxConfig)
    (hnl : cfg.no_logind = false) (har : cfg.always_reboot = false)
    (hht : cfg.hotplug_type = HotplugType.Std) :
    StagedAction.action_list_for_switch cfg GfxVendor.Nvidia
      GfxMode.Hybrid GfxMode.Integrated =
    Action.StagedActions [StagedAction.WaitLogout, StagedAction.StopDisplayManager,
      StagedAction.DisableNvidiaPersistenced, StagedAction.DisableNvidiaPowerd,
      StagedAction.KillNvidia, StagedAction.UnloadGpuDrivers,
      StagedAction.UnbindRemoveGpu, StagedAction.WriteModprobeConf,
      StagedAction.CheckVulkanIcd, StagedAction.HotplugUnplug,
      StagedAction.StartDisplayManager] := by
  obtain ⟨m, ve, vs, ar, nl, ts, ht⟩ := cfg
  simp only at hnl har hht
  subst hnl har hht
  rfl

/-- Witness for C5 at the default configuration. -/
theorem hybrid_to_integrated_nvidia_plan_witness :
    StagedAction.action_list_for_switch cfg_default GfxVendor.Nvidia
      GfxMode.Hybrid GfxMode.Integrated =
    Action.StagedActions [StagedAction.WaitLogout, StagedAction.StopDisplayManager,
      StagedAction.DisableNvidiaPersistenced, StagedAction.DisableNvidiaPowerd,
      StagedAction.KillNvidia, StagedAction.UnloadGpuDrivers,
      StagedAction.UnbindRemoveGpu, StagedAction.WriteModprobeConf,
      StagedAction.CheckVulkanIcd, StagedAction.HotplugUnplug,
      StagedAction.StartDisplayManager] :=
  hybrid_to_integrated_nvidia_plan cfg_default rfl rfl rfl

/-- The switch planner only consults `no_logind`, `always_reboot` and
`hotplug_type` from the configuration; the remaining fields are
definitionally irrelevant. -/
theorem action_list_for_switch_flags (m : GfxMode) (ve vs : Bool) (ts : Nat)
    (ar nl : Bool) (ht : HotplugType) (vendor : GfxVendor) (f t : GfxMode) :
    StagedAction.action_list_for_switch
      { mode := m, vfio_enable := ve, vfio_save := vs, always_reboot := ar,
        no_logind := nl, logout_timeout_s := ts, hotplug_type := ht } vendor f t =
    StagedAction.action_list_for_switch
      { mode := GfxMode.None, vfio_enable := false, vfio_save := false,
        always_reboot := ar, no_logind := nl, logout_timeout_s := 0,
        hotplug_type := ht } vendor f t := rfl

/-- Claim C6: whenever `no_logind = true` or `always_reboot = true`, no plan
produced by the switch planner contains `WaitLogout`, `StopDisplayManager`
or `StartDisplayManager`. -/
theorem logind_gating (cfg : GfxConfig) (vendor : GfxVendor)
    (fromMode toMode : GfxMode)
    (h : cfg.no_logind = true ∨ cfg.always_reboot = true) :
    StagedAction.WaitLogout ∉
      (StagedAction.action_list_for_switch cfg vendor fromMode toMode).staged_steps ∧
    StagedAction.StopDisplayManager ∉
      (StagedAction.action_list_for_switch cfg vendor fromMode toMode).staged_steps ∧
    StagedAction.StartDisplayManager ∉
      (StagedAction.action_list_for_switch cfg vendor fromMode toMode).staged_steps := by
  obtain ⟨m, ve, vs, ar, nl, ts, ht⟩ := cfg
  simp only at h
  rw [action_list_for_switch_flags]
  cases nl <;> cases ar <;>
    first
      | (rcases h with h | h <;> exact absurd h (by decide))
      | (cases ht <;> cases vendor <;> cases fromMode <;> cases toMode <;> decide)

/-- Witness for C6: `always_reboot = true`, Nvidia, Hybrid → Integrated. -/
theorem logind_gating_witness :
    StagedAction.WaitLogout ∉
      (StagedAction.action_list_for_switch
        { cfg_default with always_reboot := true } GfxVendor.Nvidia
        GfxMode.Hybrid GfxMode.Integrated).staged_steps ∧
    StagedAction.StopDisplayManager ∉
      (StagedAction.action_list_for_switch
        { cfg_default with always_reboot := true } GfxVendor.Nvidia
        GfxMode.Hybrid GfxMode.Integrated).staged_steps ∧
    StagedAction.StartDisplayManager ∉
      (StagedAction.action_list_for_switch
        { cfg_default with always_reboot := true } GfxVendor.Nvidia
        GfxMode.Hybrid GfxMode.Integrated).staged_steps :=
  logind_gating { cfg_default with always_reboot := true } GfxVendor.Nvidia
    GfxMode.Hybrid GfxMode.Integrated (Or.inr rfl)

/-- Claim C7: from `AsusMuxDgpu`, for every target other than `AsusMuxDgpu`
itself and for every vendor and configuration, the planner returns exactly
`StagedActions [AsusMuxIgpu]`. -/
theorem asus_mux_exit (cfg : GfxConfig) (vendor : GfxVendor) (toMode : GfxMode)
    (h : toMode ≠ GfxMode.AsusMuxDgpu) :
    StagedAction.action_list_for_switch cfg vendor GfxMode.AsusMuxDgpu toMode =
      Action.StagedActions [StagedAction.AsusMuxIgpu] := by
  cases toMode
  case AsusMuxDgpu => exact absurd rfl h
  all_goals rfl

/-- Witness for C7: AsusMuxDgpu → Integrated. -/
theorem asus_mux_exit_witness :
    StagedAction.action_list_for_switch cfg_default GfxVendor.Nvidia
      GfxMode.AsusMuxDgpu GfxMode.Integrated =
      Action.StagedActions [StagedAction.AsusMuxIgpu] :=
  asus_mux_exit cfg_default GfxVendor.Nvidia GfxMode.Integrated (by decide)

/-- Counterexample to claim C1: with an AMD dGPU (vendor ≠ Nvidia) the
Hybrid → Integrated plan still contains the real step
`DisableNvidiaPersistenced` (and `DisableNvidiaPowerd`): the switch planner
does not vendor-resolve the persistenced/powerd steps to `NotNvidia`. -/
theorem nvidia_steps_emitted_for_amd :
    GfxVendor.Amd ≠ GfxVendor.Nvidia ∧
    StagedAction.DisableNvidiaPersistenced ∈
      (StagedAction.action_list_for_switch cfg_default GfxVendor.Amd
        GfxMode.Hybrid GfxMode.Integrated).staged_steps ∧
    StagedAction.DisableNvidiaPowerd ∈
      (StagedAction.action_list_for_switch cfg_default GfxVendor.Amd
        GfxMode.Hybrid GfxMode.Integrated).staged_steps := by decide

/-- Claim C1 as amended: for every configuration, mode pair and non-Nvidia
vendor, no plan contains `KillNvidia` (the `kill_gpu_use` resolution yields
`KillAmd` or the `NotNvidia` marker); the persistenced/powerd steps, by
contrast, are emitted unconditionally. -/
theorem kill_nvidia_requires_nvidia (cfg : GfxConfig) (vendor : GfxVendor)
    (fromMode toMode : GfxMode) (h : vendor ≠ GfxVendor.Nvidia) :
    StagedAction.KillNvidia ∉
      (StagedAction.action_list_for_switch cfg vendor fromMode toMode).staged_steps := by
  obtain ⟨m, ve, vs, ar, nl, ts, ht⟩ := cfg
  rw [action_list_for_switch_flags]
  cases vendor
  case Nvidia => exact absurd rfl h
  all_goals cases nl <;> cases ar <;> cases ht <;> cases fromMode <;> cases toMode <;> decide

/-- Witness for amended C1: AMD, default config, Hybrid → Integrated. -/
theorem kill_nvidia_requires_nvidia_witness :
    StagedAction.KillNvidia ∉
      (StagedAction.action_list_for_switch cfg_default GfxVendor.Amd
        GfxMode.Hybrid GfxMode.Integrated).staged_steps :=
  kill_nvidia_requires_nvidia cfg_default GfxVendor.Amd
    GfxMode.Hybrid GfxMode.Integrated (by decide)

/-- Claim C2 (failing-input evaluation): the session gate times out with
`SystemdUnitWaitTimeout` after its hard-coded 30 seconds even though the
configured `logout_timeout_s` is `0` (documented as "no timeout") or the
default 180; the configuration value is never consulted. -/
theorem wait_logout_ignores_configured_timeout :
    wait_logout [{ loop_exit := false, sessions_exist := true, elapsed_s := 31 }] =
      Except.error (GfxError.SystemdUnitWaitTimeout (logout_timeout_detail 30)) ∧
    wait_logout_configured { cfg_default with logout_timeout_s := 0 }
      [{ loop_exit := false, sessions_exist := true, elapsed_s := 31 }] =
      Except.ok () ∧
    wait_logout_configured cfg_default
      [{ loop_exit := false, sessions_exist := true, elapsed_s := 31 }] =
      Except.ok () := by decide

/-- Counterexample to claim C3: when enumeration captures no device and no
ASUS ACPI override exists, `DiscreetGpu::new` does *not* fail with
`DgpuNotFound`; it succeeds with an empty device list and vendor `Unknown`. -/
theorem dgpu_registry_succeeds_without_device :
    DiscreetGpu.new env_no_dgpu =
      Except.ok { vendor := GfxVendor.Unknown, dgpu_index := 0, devices := [] } ∧
    DiscreetGpu.new env_no_dgpu ≠ Except.error GfxError.DgpuNotFound := by decide

/-- Claim C3 as amended: `Device::find` is what fails with `DgpuNotFound`
when no device is captured; `DiscreetGpu::new` swallows that failure and
succeeds with an empty device list whose vendor is `AsusDgpuDisabled` when
`dgpu_disable` exists and reads disabled, else `Nvidia` when `gpu_mux_mode`
exists and reads `Discreet`, else `Unknown`. -/
theorem dgpu_registry_fallback (env : DgpuEnv) (hc : env.captured = [])
    (hr : env.rescan_ok = true) :
    Device.find env.captured = Except.error GfxError.DgpuNotFound ∧
    DiscreetGpu.new env =
      Except.ok { vendor := dgpu_fallback_vendor env, dgpu_index := 0,
                  devices := [] } := by
  constructor
  · rw [hc]; rfl
  · simp [DiscreetGpu.new, Device.find, hc, hr]

/-- Witness for amended C3: ASUS `dgpu_disable` set, nothing captured. -/
theorem dgpu_registry_fallback_witness :
    Device.find env_asus_disabled.captured = Except.error GfxError.DgpuNotFound ∧
    DiscreetGpu.new env_asus_disabled =
      Except.ok { vendor := GfxVendor.AsusDgpuDisabled, dgpu_index := 0,
                  devices := [] } :=
  dgpu_registry_fallback env_asus_disabled rfl rfl

/-- `unbind_write_names` distributes over concatenation of traces. -/
theorem unbind_write_names_append (a b : List PciWrite) :
    unbind_write_names (a ++ b) = unbind_write_names a ++ unbind_write_names b :=
  List.filterMap_append a b _

/-- A remove primitive performs no `/unbind` write. -/
theorem unbind_write_names_remove (env : FsEnv) (d : Device) :
    unbind_write_names (Device.remove env d) = [] := by
  unfold Device.remove unbind_write_names
  split <;> rfl

/-- The whole remove pass performs no `/unbind` write. -/
theorem unbind_write_names_removes (env : FsEnv) (ds : List Device) :
    unbind_write_names (ds.flatMap (Device.remove env)) = [] := by
  induction ds with
  | nil => rfl
  | cons d ds ih =>
    rw [List.flatMap_cons, unbind_write_names_append,
      unbind_write_names_remove, ih]
    rfl

/-- On a device list whose members all have a bound driver, the unbind pass
writes exactly the device names in list order. -/
theorem unbind_write_names_unbinds (env : FsEnv) (ds : List Device)
    (hd : ∀ d ∈ ds, has_bound_driver env d = true) :
    unbind_write_names (ds.flatMap (Device.unbind env)) = ds.map Device.name := by
  induction ds with
  | nil => rfl
  | cons d ds ih =>
    have hdd : has_bound_driver env d = true := hd d (List.mem_cons_self d ds)
    have hrest : ∀ x ∈ ds, has_bound_driver env x = true :=
      fun x hx => hd x (List.mem_cons_of_mem d hx)
    rw [List.flatMap_cons, unbind_write_names_append, ih hrest]
    unfold has_bound_driver at hdd
    unfold Device.unbind unbind_write_names
    rcases hdrv : env.driver_of d.dev_path with _ | drv
    · rw [hdrv] at hdd
      exact absurd hdd (by simp)
    · rw [hdrv] at hdd
      simp only at hdd
      simp [hdd]

/-- A two-device set on which the order of writes is observable. -/
theorem unbind_remove_not_interleaved :
    DiscreetGpu.unbind_remove fs_all gpu_two = Except.ok
      [PciWrite.unbind "/sys/bus/pci/drivers/nvidia/unbind" "0000:01:00.1",
       PciWrite.unbind "/sys/bus/pci/drivers/nvidia/unbind" "0000:01:00.0",
       PciWrite.remove "/sys/devices/pci0000:00/0000:01:00.1/remove",
       PciWrite.remove "/sys/devices/pci0000:00/0000:01:00.0/remove"] ∧
    unbind_remove_interleaved fs_all gpu_two = Except.ok
      [PciWrite.unbind "/sys/bus/pci/drivers/nvidia/unbind" "0000:01:00.1",
       PciWrite.remove "/sys/devices/pci0000:00/0000:01:00.1/remove",
       PciWrite.unbind "/sys/bus/pci/drivers/nvidia/unbind" "0000:01:00.0",
       PciWrite.remove "/sys/devices/pci0000:00/0000:01:00.0/remove"] ∧
    DiscreetGpu.unbind_remove fs_all gpu_two ≠
      unbind_remove_interleaved fs_all gpu_two := by decide

/-- Claim C4 as amended: `unbind_remove` runs a full unbind pass over the
device set in reverse enumeration order and then a full remove pass, also in
reverse (it does not interleave unbind and remove per device); consequently
the sequence of devices whose `/unbind` file is written equals the device-set
order reversed, provided the registry vendor is known and every device has a
bound driver. -/
theorem unbind_remove_reverse_passes (env : FsEnv) (g : DiscreetGpu)
    (hv : g.vendor ≠ GfxVendor.Unknown)
    (hd : ∀ d ∈ g.devices, has_bound_driver env d = true) :
    DiscreetGpu.unbind_remove env g = Except.ok
      (g.devices.reverse.flatMap (Device.unbind env) ++
       g.devices.reverse.flatMap (Device.remove env)) ∧
    unbind_write_names
      (g.devices.reverse.flatMap (Device.unbind env) ++
       g.devices.reverse.flatMap (Device.remove env)) =
      (g.devices.map Device.name).reverse := by
  constructor
  · unfold DiscreetGpu.unbind_remove DiscreetGpu.unbind DiscreetGpu.remove
    rw [if_pos hv, if_pos hv]
    rfl
  · rw [unbind_write_names_append, unbind_write_names_removes,
      unbind_write_names_unbinds env _ (fun d hdm => hd d (List.mem_reverse.mp hdm)),
      List.map_reverse, List.append_nil]

/-- Witness for amended C4 on the two-device set. -/
theorem unbind_remove_reverse_passes_witness :
    DiscreetGpu.unbind_remove fs_all gpu_two = Except.ok
      (gpu_two.devices.reverse.flatMap (Device.unbind fs_all) ++
       gpu_two.devices.reverse.flatMap (Device.remove fs_all)) ∧
    unbind_write_names
      (gpu_two.devices.reverse.flatMap (Device.unbind fs_all) ++
       gpu_two.devices.reverse.flatMap (Device.remove fs_all)) =
      (gpu_two.devices.map Device.name).reverse :=
  unbind_remove_reverse_passes fs_all gpu_two (by decide) (by decide)

/-- Claim C8: for every mode and every starting state of the Vulkan ICD file
and its `_inactive` sibling, applying `check_vulkan_icd` twice yields the
same filesystem state as applying it once; the ICD file is renamed to the
`_inactive` name for `Vfio`/`Integrated` and renamed back for any other
mode, each rename happening only when its source exists. -/
theorem check_vulkan_icd_idempotent (mode : GfxMode) (fs : VulkanIcdFs) :
    check_vulkan_icd mode (check_vulkan_icd mode fs) = check_vulkan_icd mode fs ∧
    check_vulkan_icd mode fs =
      (if mode = GfxMode.Vfio ∨ mode = GfxMode.Integrated then
        (if fs.icd_present then
          { icd_present := false, inactive_present := true } else fs)
       else
        (if fs.inactive_present then
          { icd_present := true, inactive_present := false } else fs)) := by
  obtain ⟨i, a⟩ := fs
  cases mode <;> cases i <;> cases a <;> exact ⟨by decide, by decide⟩

/-- Claim C9: `set_config` copies `vfio_enable`, `vfio_save`,
`always_reboot`, `no_logind` and `logout_timeout_s` from the submitted
config, never the submitted `mode`, and triggers a `set_mode` on the stored
mode exactly when the submitted mode equals the stored mode. -/
theorem set_config_fields (cfg : GfxConfig) (config : GfxConfigDbus) :
    (set_config cfg config).1.mode = cfg.mode ∧
    (set_config cfg config).1.vfio_enable = config.vfio_enable ∧
    (set_config cfg config).1.vfio_save = config.vfio_save ∧
    (set_config cfg config).1.always_reboot = config.always_reboot ∧
    (set_config cfg config).1.no_logind = config.no_logind ∧
    (set_config cfg config).1.logout_timeout_s = config.logout_timeout_s ∧
    (set_config cfg config).2 =
      (if cfg.mode = config.mode then some cfg.mode else none) :=
  ⟨rfl, rfl, rfl, rfl, rfl, rfl, rfl⟩

/-- Claim C10: every power state survives a print/parse round trip, and any
string that does not normalise (lowercase + trim) to one of the five
recognised power strings parses to `Ok Unknown`, never to an error. -/
theorem gfx_power_roundtrip (p : GfxPower) (s : String)
    (h : str_trim (str_to_lowercase s) ∉
      (["active", "suspended", "off", "dgpu_disabled", "asus_mux_discreet"] :
        List String)) :
    GfxPower.from_str (GfxPower.as_str p) = Except.ok p ∧
    GfxPower.from_str s = Except.ok GfxPower.Unknown := by
  constructor
  · cases p <;> decide
  · simp only [List.mem_cons, List.mem_singleton, not_or] at h
    obtain ⟨h1, h2, h3, h4, h5⟩ := h
    simp [GfxPower.from_str, h1, h2, h3, h4, h5]

/-- Witness for C10 with an unrecognised string. -/
theorem gfx_power_roundtrip_witness :
    GfxPower.from_str (GfxPower.as_str GfxPower.AsusMuxDiscreet) =
      Except.ok GfxPower.AsusMuxDiscreet ∧
    GfxPower.from_str " Not A Power State " = Except.ok GfxPower.Unknown :=
  gfx_power_roundtrip GfxPower.AsusMuxDiscreet " Not A Power State " (by decide)

end Supergfx
